import Mathlib

/-!
# Verification of the vezor-python secrets client

Shallow embedding of the vezor-python SDK (`src/vezor/client.py`,
`src/vezor/exceptions.py`, `src/config.py`) and proofs about the spec's
claims over it.  Python dicts are modelled as insertion-ordered
association lists with unique keys (assignment replaces the value
in place, otherwise appends); JSON bodies as a `JValue` inductive;
a `requests.Response` as its status code, raw text and the outcome
of `response.json()` (`none` when decoding raises).
-/

namespace Vezor

/-- A Python dict value appearing in query parameters: either a string
(tag values, `search`) or an integer (`limit`, `offset`, `version`). -/
inductive PVal where
  | s (v : String)
  | n (v : Int)
deriving DecidableEq, Repr

/-- Python dict assignment `d[k] = v`: replaces the value of an existing
key in place (keys are unique by construction), otherwise appends. -/
def dictSet {V : Type} : List (String × V) → String → V → List (String × V)
  | [], k, v => [(k, v)]
  | p :: tl, k, v => if p.1 = k then (k, v) :: tl else p :: dictSet tl k v

/-- Python `d.update(items)`: assign each pair in order. -/
def pyUpdate {V : Type} (d : List (String × V)) (items : List (String × V)) :
    List (String × V) :=
  items.foldl (fun a kv => dictSet a kv.1 kv.2) d

/-- Python dict lookup returning `None` on a missing key (`d.get(k)`). -/
def dlookup {V : Type} : List (String × V) → String → Option V
  | [], _ => none
  | p :: tl, k => if p.1 = k then some p.2 else dlookup tl k

/-- JSON values, as produced by `response.json()`. -/
inductive JValue where
  | null
  | bool (b : Bool)
  | num (n : Int)
  | str (s : String)
  | arr (xs : List JValue)
  | obj (fields : List (String × JValue))

/-- An HTTP response as the classifier sees it: numeric status, raw body
text, and the result of `response.json()` (`none` when the body is not
valid JSON, i.e. when `.json()` raises). -/
structure Response where
  status_code : Nat
  text : String
  json : Option JValue

/-- `requests.Response.ok`: true unless the status is a 4xx/5xx error
(`raise_for_status` in requests only raises for 400 ≤ status < 600). -/
def responseOk (r : Response) : Bool :=
  if 400 ≤ r.status_code ∧ r.status_code < 600 then false else true

/-- The closed error taxonomy of `src/vezor/exceptions.py`.  The message
is whatever Python value `error_data.get(...)` produced (not necessarily
a string).  `api` additionally carries the status code and the optional
structured payload. -/
inductive VezorErr where
  | auth (message : JValue)
  | permission (message : JValue)
  | notFound (message : JValue)
  | validation (message : JValue)
  | api (message : JValue) (status_code : Nat) (response : Option JValue)

/-- `response.text or f"HTTP {response.status_code}"`. -/
def textOrDefault (r : Response) : String :=
  if r.text = "" then "HTTP " ++ toString r.status_code else r.text

/-- The message computed by `raise_for_status`:
`error_data.get('error', error_data.get('message', response.text))` when
`response.json()` yields a dict; the `except` branch otherwise (both when
`.json()` raises and when `.get` raises `AttributeError` on a non-dict). -/
def errMessage (r : Response) : JValue :=
  match r.json with
  | some (JValue.obj fields) =>
    match dlookup fields "error" with
    | some v => v
    | none =>
      match dlookup fields "message" with
      | some v => v
      | none => JValue.str r.text
  | some _ => JValue.str (textOrDefault r)
  | none => JValue.str (textOrDefault r)

/-- `raise_for_status` from `src/vezor/exceptions.py`.  Returns `ok` when
`response.ok`; otherwise classifies by status code.  The generic branch
attaches `error_data if 'error_data' in dir() else None`: the local
`error_data` is bound exactly when `response.json()` succeeded, so the
payload is `r.json` verbatim. -/
def raise_for_status (r : Response) : Except VezorErr Unit :=
  if responseOk r then Except.ok () else
  let message := errMessage r
  if r.status_code = 401 then Except.error (VezorErr.auth message)
  else if r.status_code = 403 then Except.error (VezorErr.permission message)
  else if r.status_code = 404 then Except.error (VezorErr.notFound message)
  else if r.status_code = 400 then Except.error (VezorErr.validation message)
  else Except.error (VezorErr.api message r.status_code r.json)

/-! ## The client (`src/vezor/client.py`) -/

def SDK_VERSION : String := "2.0.0"

def USER_AGENT : String := "vezor-python/" ++ SDK_VERSION

/-- `base_url.rstrip('/')`: remove every trailing `'/'` character. -/
def rstripSlashes (s : String) : String :=
  String.mk ((s.data.reverse.dropWhile (fun c => c = '/')).reverse)

/-- Python `str.lower()`, character-wise ASCII case folding (the
`key_name` comparison in the resolver is over ASCII key names). -/
def pyLower (s : String) : String :=
  String.mk (s.data.map Char.toLower)

/-- Python truthiness of an optional string (`if token:`):
false for `None` and for the empty string. -/
def optTruthy : Option String → Bool
  | none => false
  | some s => s ≠ ""

/-- One entry of the `secrets` array returned by the list endpoint
(bulk listings never carry values; the resolver reads `key_name` and
`id` from each). -/
structure SecretMeta where
  id : String
  key_name : String
deriving DecidableEq, Repr

/-- A full secret as returned by `get_secret` (value included). -/
structure Secret where
  id : String
  key_name : String
  value : String
deriving DecidableEq, Repr

/-- A wire request as assembled by `VezorClient._request`: method, the
URL `f'{self.base_url}{endpoint}'`, query parameters, and the session
headers in force at call time. -/
structure Request where
  method : String
  url : String
  params : List (String × PVal)
  headers : List (String × String)
deriving DecidableEq, Repr

/-- The mutable state of a `VezorClient`: stripped base URL, token,
organization id, and the `requests.Session` headers. -/
structure VezorClient where
  base_url : String
  token : Option String
  organization_id : Option String
  headers : List (String × String)
deriving DecidableEq, Repr

/-- `VezorClient.__init__`: strips trailing slashes from `base_url`,
always sets `User-Agent`, and sets `Authorization` / `X-Organization-Id`
only when the corresponding argument is truthy.  (The `requests` default
headers are case-insensitively overwritten; only the three headers the
client manages are modelled.) -/
def mkVezorClient (base_url : String) (token organization_id : Option String) :
    VezorClient :=
  let headers := dictSet [] "User-Agent" USER_AGENT
  let headers :=
    if optTruthy token then
      dictSet headers "Authorization" ("Bearer " ++ token.getD "")
    else headers
  let headers :=
    if optTruthy organization_id then
      dictSet headers "X-Organization-Id" (organization_id.getD "")
    else headers
  { base_url := rstripSlashes base_url
    token := token
    organization_id := organization_id
    headers := headers }

/-- `VezorClient.set_token`: stores the token and unconditionally updates
the session `Authorization` header. -/
def VezorClient.set_token (c : VezorClient) (token : String) : VezorClient :=
  { c with
    token := some token
    headers := dictSet c.headers "Authorization" ("Bearer " ++ token) }

/-- `VezorClient.set_organization`: stores the organization id and
unconditionally updates the session `X-Organization-Id` header. -/
def VezorClient.set_organization (c : VezorClient) (organization_id : String) :
    VezorClient :=
  { c with
    organization_id := some organization_id
    headers := dictSet c.headers "X-Organization-Id" organization_id }

/-- The request `VezorClient._request` hands to the session:
`url = f'{self.base_url}{endpoint}'`, with the session headers. -/
def VezorClient.mkRequest (c : VezorClient) (method endpoint : String)
    (params : List (String × PVal)) : Request :=
  { method := method
    url := c.base_url ++ endpoint
    params := params
    headers := c.headers }

/-- The tag part of the `list_secrets` query:
`params = {}` then `if tags: params.update(tags)`. -/
def list_secrets_tagbase (tags : Option (List (String × String))) :
    List (String × PVal) :=
  match tags with
  | some ts =>
    if ts ≠ [] then pyUpdate [] (ts.map (fun kv => (kv.1, PVal.s kv.2))) else []
  | none => []

/-- `if search: params['search'] = search`. -/
def searchStep (p : List (String × PVal)) : Option String → List (String × PVal)
  | some s => if s ≠ "" then dictSet p "search" (PVal.s s) else p
  | none => p

/-- `if limit: params['limit'] = limit` (0 is falsy in Python). -/
def limitStep (p : List (String × PVal)) : Option Int → List (String × PVal)
  | some l => if l ≠ 0 then dictSet p "limit" (PVal.n l) else p
  | none => p

/-- The query parameters built by `VezorClient.list_secrets`: tag entries
first, then `search` (if truthy), `limit` (if truthy), and finally
`params['offset'] = offset` unconditionally. -/
def list_secrets_params (tags : Option (List (String × String)))
    (search : Option String) (limit : Option Int) (offset : Int) :
    List (String × PVal) :=
  dictSet (limitStep (searchStep (list_secrets_tagbase tags) search) limit)
    "offset" (PVal.n offset)

/-- The query parameters built by `VezorClient.get_secret`:
`params = {}` then `if version is not None: params['version'] = version`. -/
def get_secret_params (version : Option Int) : List (String × PVal) :=
  match version with
  | some v => dictSet [] "version" (PVal.n v)
  | none => []

/-- `VezorClient.list_secrets`, with the server's decoded `secrets` array
abstracted as `listed`.  Returns the decoded result together with the
single request issued. -/
def VezorClient.list_secrets (c : VezorClient) (listed : List SecretMeta)
    (tags : Option (List (String × String))) (search : Option String)
    (limit : Option Int) (offset : Int) : List SecretMeta × List Request :=
  (listed, [c.mkRequest "GET" "/api/v1/secrets"
    (list_secrets_params tags search limit offset)])

/-- `VezorClient.get_secret`, with the server's decoded secret for a given
id abstracted as `fetch`.  Returns the decoded secret together with the
single request issued. -/
def VezorClient.get_secret (c : VezorClient) (fetch : String → Secret)
    (secret_id : String) (version : Option Int) : Secret × List Request :=
  (fetch secret_id,
   [c.mkRequest "GET" ("/api/v1/secrets/" ++ secret_id)
     (get_secret_params version)])

/-- `VezorClient.get_secret_by_name`: calls
`list_secrets(tags=tags, search=key_name, limit=100)`, walks the returned
secrets in order, and at the FIRST one whose `key_name` matches
case-insensitively returns `get_secret(secret['id'])`; returns `None`
when no entry matches.  The request trace is accumulated left to right. -/
def VezorClient.get_secret_by_name (c : VezorClient) (listed : List SecretMeta)
    (fetch : String → Secret) (key_name : String)
    (tags : Option (List (String × String))) : Option Secret × List Request :=
  let r1 := c.list_secrets listed tags (some key_name) (some 100) 0
  match r1.1.find? (fun s => pyLower s.key_name == pyLower key_name) with
  | some s =>
    let r2 := c.get_secret fetch s.id none
    (some r2.1, r1.2 ++ r2.2)
  | none => (none, r1.2)

/-- A Python dict value appearing in the `update_secret` JSON body:
the string fields `value`/`description`, or the `tags` mapping. -/
inductive BVal where
  | s (v : String)
  | tags (v : List (String × String))
deriving DecidableEq, Repr

/-- The JSON body built by `VezorClient.update_secret`: `data = {}` then
one `if <arg> is not None: data[<key>] = <arg>` per field (note: `is not
None`, not truthiness — an empty string is transmitted). -/
def update_secret_body (value description : Option String)
    (tags : Option (List (String × String))) : List (String × BVal) :=
  let d : List (String × BVal) := []
  let d := match value with
    | some v => dictSet d "value" (BVal.s v)
    | none => d
  let d := match description with
    | some v => dictSet d "description" (BVal.s v)
    | none => d
  match tags with
  | some v => dictSet d "tags" (BVal.tags v)
  | none => d

/-- `VezorClient.update_secret` as the wire call it makes: method `PUT`,
URL of the secret, and the JSON body above. -/
def VezorClient.update_secret (c : VezorClient) (secret_id : String)
    (value description : Option String)
    (tags : Option (List (String × String))) :
    String × String × List (String × BVal) :=
  ("PUT", c.base_url ++ "/api/v1/secrets/" ++ secret_id,
   update_secret_body value description tags)

/-! ## Group pull (`pull_group_secrets`) -/

/-- Upper-case hex digit of a nibble. -/
def hexDigit (n : Nat) : Char :=
  if n < 10 then Char.ofNat (48 + n) else Char.ofNat (55 + n)

/-- One byte under `urllib.parse.quote(..., safe="")`: ASCII letters,
digits and `_.-~` pass through, every other byte becomes `%XX`. -/
def quoteByte (b : UInt8) : String :=
  let n := b.toNat
  if (65 ≤ n ∧ n ≤ 90) ∨ (97 ≤ n ∧ n ≤ 122) ∨ (48 ≤ n ∧ n ≤ 57) ∨
      n = 45 ∨ n = 46 ∨ n = 95 ∨ n = 126 then
    String.mk [Char.ofNat n]
  else
    String.mk ['%', hexDigit (n / 16), hexDigit (n % 16)]

/-- `urllib.parse.quote(s, safe="")` over the UTF-8 bytes of `s`. -/
def urlQuote (s : String) : String :=
  String.join (s.toUTF8.toList.map quoteByte)

/-- Outcome of `pull_group_secrets`: a raised `VezorError`, a crash of
`response.json()` on a non-JSON body, the verbatim response text, or the
parsed JSON structure. -/
inductive PullResult where
  | err (e : VezorErr)
  | decodeFailure
  | text (t : String)
  | json (j : JValue)

/-- `VezorClient.pull_group_secrets`: one GET on the group's secrets
endpoint with `params={'format': format}`; after `raise_for_status`,
formats `env`/`export` return `response.text` verbatim, anything else
returns `response.json()`. -/
def VezorClient.pull_group_secrets (c : VezorClient) (resp : Response)
    (name format : String) : PullResult × Request :=
  let req := c.mkRequest "GET" ("/api/v1/groups/" ++ urlQuote name ++ "/secrets")
    (dictSet [] "format" (PVal.s format))
  match raise_for_status resp with
  | Except.error e => (PullResult.err e, req)
  | Except.ok () =>
    if format = "env" ∨ format = "export" then (PullResult.text resp.text, req)
    else
      match resp.json with
      | some j => (PullResult.json j, req)
      | none => (PullResult.decodeFailure, req)

/-! ## CLI credential store (`src/config.py`) -/

namespace CLIConfig

/-- `CLIConfig.get_token`: the keychain read (modelled as an `Except`
oracle: `ok` carries `keyring.get_password`'s result, which is `None`
when no credential is stored; `error` means the backend raised) is
wrapped in `try/except Exception: return None`. -/
def get_token (read : Except String (Option String)) : Option String :=
  match read with
  | Except.ok t => t
  | Except.error _ => none

/-- `CLIConfig.set_token`: a failing `keyring.set_password` is re-raised
as `RuntimeError(f"Failed to store token in keychain: {e}")`. -/
def set_token (write : Except String Unit) : Except String Unit :=
  match write with
  | Except.ok () => Except.ok ()
  | Except.error e =>
    Except.error ("Failed to store token in keychain: " ++ e)

end CLIConfig

/-! ## Helper lemmas on the dict model -/

theorem dlookup_dictSet_self {V : Type} (d : List (String × V)) (k : String) (v : V) :
    dlookup (dictSet d k v) k = some v := by
  induction d with
  | nil => simp [dictSet, dlookup]
  | cons p tl ih =>
    by_cases h : p.1 = k
    · simp [dictSet, dlookup, h]
    · simp [dictSet, dlookup, h, ih]

theorem dlookup_dictSet_ne {V : Type} (d : List (String × V)) (k : String) (v : V)
    (k' : String) (h : k' ≠ k) :
    dlookup (dictSet d k v) k' = dlookup d k' := by
  induction d with
  | nil => simp [dictSet, dlookup, Ne.symm h]
  | cons p tl ih =>
    by_cases hp : p.1 = k
    · subst hp
      simp [dictSet, dlookup, Ne.symm h]
    · simp only [dictSet, if_neg hp]
      by_cases hq : p.1 = k'
      · simp [dlookup, hq]
      · simp [dlookup, hq, ih]

theorem raise_for_status_of_ok (r : Response) (h : responseOk r = true) :
    raise_for_status r = Except.ok () := by
  unfold raise_for_status
  rw [if_pos h]

/-! ## Claim C2 -/

/-- C2 counterexample: the claim says the classifier returns success
exactly for 2xx statuses and raises on every other status; but a 302
response (non-2xx) passes `response.ok` (true for every status below
400), so `raise_for_status` returns success on it. -/
theorem c2_status_counterexample :
    raise_for_status { status_code := 302, text := "Found", json := none }
      = Except.ok ()
    ∧ ¬(200 ≤ 302 ∧ 302 < 300) :=
  ⟨rfl, by decide⟩

/-- C2 (amended): `raise_for_status` returns success exactly when the
status is outside 400–599 (so 1xx/3xx pass as well as 2xx); otherwise it
raises `VezorAuthError` for 401, `VezorPermissionError` for 403,
`VezorNotFoundError` for 404, `VezorValidationError` for 400, and
`VezorAPIError` for any other 400–599 status. -/
theorem c2_classifier_amended (r : Response) :
    (raise_for_status r = Except.ok ()
      ↔ ¬(400 ≤ r.status_code ∧ r.status_code < 600))
    ∧ (r.status_code = 401 →
        raise_for_status r = Except.error (VezorErr.auth (errMessage r)))
    ∧ (r.status_code = 403 →
        raise_for_status r = Except.error (VezorErr.permission (errMessage r)))
    ∧ (r.status_code = 404 →
        raise_for_status r = Except.error (VezorErr.notFound (errMessage r)))
    ∧ (r.status_code = 400 →
        raise_for_status r = Except.error (VezorErr.validation (errMessage r)))
    ∧ (400 ≤ r.status_code → r.status_code < 600 →
        r.status_code ≠ 400 → r.status_code ≠ 401 →
        r.status_code ≠ 403 → r.status_code ≠ 404 →
        raise_for_status r
          = Except.error (VezorErr.api (errMessage r) r.status_code r.json)) := by
  have hok : responseOk r = true ↔ ¬(400 ≤ r.status_code ∧ r.status_code < 600) := by
    unfold responseOk
    split_ifs with h <;> simp [h]
  refine ⟨?_, ?_, ?_, ?_, ?_, ?_⟩
  · unfold raise_for_status
    by_cases h : responseOk r = true
    · simp [h, hok.mp h]
    · have hnot : 400 ≤ r.status_code ∧ r.status_code < 600 := by
        by_contra hc
        exact h (hok.mpr hc)
      simp only [h, if_false, Bool.false_eq_true, if_neg]
      split_ifs <;> simp [hnot]
  all_goals
    intros
    simp_all [raise_for_status, responseOk]

/-- C2 witness: the amended classifier claim at concrete responses
(a 401 yields `VezorAuthError`, a 503 yields `VezorAPIError`). -/
theorem c2_classifier_amended_witness :
    raise_for_status { status_code := 401, text := "nope", json := none }
      = Except.error (VezorErr.auth (JValue.str "nope"))
    ∧ raise_for_status { status_code := 503, text := "down", json := none }
      = Except.error (VezorErr.api (JValue.str "down") 503 none) :=
  ⟨(c2_classifier_amended { status_code := 401, text := "nope", json := none }).2.1 rfl,
   (c2_classifier_amended { status_code := 503, text := "down", json := none }).2.2.2.2.2
     (by decide) (by decide) (by decide) (by decide) (by decide) (by decide)⟩

/-! ## Claim C3 -/

/-- C3: evaluation of the generic fallback at the failing input.  A 500
response whose body text `"{}"` decodes to a JSON object with neither an
`error` nor a `message` field is NOT the error schema, so per the claim
(and the spec's stated intent) the raised `VezorAPIError` should carry a
null payload with the raw text as message; the code instead attaches the
parsed object `{}` as the payload, because the `'error_data' in dir()`
check tests whether parsing bound the variable, not whether the body
matched the error schema. -/
theorem c3_fallback_payload_eval :
    raise_for_status { status_code := 500, text := "{}", json := some (JValue.obj []) }
      = Except.error
          (VezorErr.api (JValue.str "{}") 500 (some (JValue.obj []))) := rfl

/-! ## Claim C1 -/

/-- C1 counterexample: with TWO listed secrets whose `key_name` equals
the query case-insensitively, the claim says the resolver raises an
`AmbiguousMatchError` carrying both candidates; instead
`get_secret_by_name` silently succeeds with the full fetch of the FIRST
candidate (no ambiguity error exists anywhere in the SDK). -/
theorem c1_ambiguity_counterexample :
    ((mkVezorClient "https://api.vezor.io" (some "tok") (some "org")).get_secret_by_name
        [{ id := "id1", key_name := "KEY" }, { id := "id2", key_name := "key" }]
        (fun i => { id := i, key_name := "KEY", value := "val" }) "key" none).1
      = some { id := "id1", key_name := "KEY", value := "val" }
    ∧ (([{ id := "id1", key_name := "KEY" },
         { id := "id2", key_name := "key" }] : List SecretMeta).filter
        (fun s => pyLower s.key_name == pyLower "key")).length = 2 :=
  ⟨rfl, rfl⟩

/-- C1 (amended): `get_secret_by_name(key_name, tags)` walks the secrets
returned by `list_secrets(tags, search=key_name, limit=100)` in order:
when no entry's `key_name` matches `key_name` case-insensitively it
returns `None` (it raises no `NotFoundError`), and otherwise it fetches
the FIRST matching candidate in full via `get_secret` and returns it,
even when several candidates match — it never raises an
`AmbiguousMatchError` (none exists in the SDK). -/
theorem c1_resolver_amended (c : VezorClient) (listed : List SecretMeta)
    (fetch : String → Secret) (key_name : String)
    (tags : Option (List (String × String))) :
    (listed.find? (fun s => pyLower s.key_name == pyLower key_name) = none →
      (c.get_secret_by_name listed fetch key_name tags).1 = none)
    ∧ (∀ s : SecretMeta,
        listed.find? (fun s => pyLower s.key_name == pyLower key_name) = some s →
        (c.get_secret_by_name listed fetch key_name tags).1 = some (fetch s.id)) := by
  constructor
  · intro h
    simp [VezorClient.get_secret_by_name, VezorClient.list_secrets, h]
  · intro s h
    simp [VezorClient.get_secret_by_name, VezorClient.list_secrets,
      VezorClient.get_secret, h]

/-- C1 witness: the amended resolver claim at a concrete listing (one
case-insensitive match, fetched in full; an empty listing yields `None`). -/
theorem c1_resolver_amended_witness :
    ((mkVezorClient "u" none none).get_secret_by_name
        [{ id := "i", key_name := "N" }]
        (fun i => { id := i, key_name := "N", value := "v" }) "n" none).1
      = some { id := "i", key_name := "N", value := "v" }
    ∧ ((mkVezorClient "u" none none).get_secret_by_name []
        (fun i => { id := i, key_name := "N", value := "v" }) "n" none).1
      = none :=
  ⟨(c1_resolver_amended (mkVezorClient "u" none none)
      [{ id := "i", key_name := "N" }]
      (fun i => { id := i, key_name := "N", value := "v" }) "n" none).2
      { id := "i", key_name := "N" } rfl,
   (c1_resolver_amended (mkVezorClient "u" none none) []
      (fun i => { id := i, key_name := "N", value := "v" }) "n" none).1 rfl⟩

/-! ## Claim C5 -/

/-- C5: every successful `get_secret_by_name` call issues exactly two
sequential requests: first `GET /api/v1/secrets` whose query carries
`search = key_name` (for a nonempty name) and `limit = 100`, then
`GET /api/v1/secrets/{id}` (no `version` parameter) for a matching
candidate — no further requests. -/
theorem c5_two_requests (c : VezorClient) (listed : List SecretMeta)
    (fetch : String → Secret) (key_name : String)
    (tags : Option (List (String × String))) (sec : Secret)
    (hsucc : (c.get_secret_by_name listed fetch key_name tags).1 = some sec)
    (hk : key_name ≠ "") :
    ∃ s : SecretMeta,
      listed.find? (fun s => pyLower s.key_name == pyLower key_name) = some s ∧
      (pyLower s.key_name == pyLower key_name) = true ∧
      (c.get_secret_by_name listed fetch key_name tags).2 =
        [c.mkRequest "GET" "/api/v1/secrets"
            (list_secrets_params tags (some key_name) (some 100) 0),
         c.mkRequest "GET" ("/api/v1/secrets/" ++ s.id) []] ∧
      dlookup (list_secrets_params tags (some key_name) (some 100) 0) "search"
        = some (PVal.s key_name) ∧
      dlookup (list_secrets_params tags (some key_name) (some 100) 0) "limit"
        = some (PVal.n 100) := by
  cases hfind : listed.find? (fun s => pyLower s.key_name == pyLower key_name) with
  | none =>
    exfalso
    simp [VezorClient.get_secret_by_name, VezorClient.list_secrets, hfind] at hsucc
  | some s =>
    have hparams :
        list_secrets_params tags (some key_name) (some 100) 0
          = dictSet (dictSet (searchStep (list_secrets_tagbase tags) (some key_name))
              "limit" (PVal.n 100)) "offset" (PVal.n 0) := by
      simp [list_secrets_params, limitStep]
    have hsearchStep :
        searchStep (list_secrets_tagbase tags) (some key_name)
          = dictSet (list_secrets_tagbase tags) "search" (PVal.s key_name) := by
      simp [searchStep, hk]
    refine ⟨s, rfl, by simpa using List.find?_some hfind, ?_, ?_, ?_⟩
    · simp [VezorClient.get_secret_by_name, VezorClient.list_secrets,
        VezorClient.get_secret, get_secret_params, hfind]
    · rw [hparams, hsearchStep,
        dlookup_dictSet_ne _ _ _ _ (by decide),
        dlookup_dictSet_ne _ _ _ _ (by decide),
        dlookup_dictSet_self]
    · rw [hparams,
        dlookup_dictSet_ne _ _ _ _ (by decide),
        dlookup_dictSet_self]

/-- C5 witness: the two-request property at a concrete listing. -/
theorem c5_two_requests_witness :
    ∃ s : SecretMeta,
      ([{ id := "id1", key_name := "KEY" }] : List SecretMeta).find?
          (fun s => pyLower s.key_name == pyLower "key") = some s ∧
      (pyLower s.key_name == pyLower "key") = true ∧
      ((mkVezorClient "u" none none).get_secret_by_name
          [{ id := "id1", key_name := "KEY" }]
          (fun i => { id := i, key_name := "KEY", value := "v" }) "key" none).2 =
        [(mkVezorClient "u" none none).mkRequest "GET" "/api/v1/secrets"
            (list_secrets_params none (some "key") (some 100) 0),
         (mkVezorClient "u" none none).mkRequest "GET" ("/api/v1/secrets/" ++ s.id) []] ∧
      dlookup (list_secrets_params none (some "key") (some 100) 0) "search"
        = some (PVal.s "key") ∧
      dlookup (list_secrets_params none (some "key") (some 100) 0) "limit"
        = some (PVal.n 100) :=
  c5_two_requests (mkVezorClient "u" none none)
    [{ id := "id1", key_name := "KEY" }]
    (fun i => { id := i, key_name := "KEY", value := "v" }) "key" none
    { id := "id1", key_name := "KEY", value := "v" } rfl (by decide)

/-! ## Claim C4 -/

/-- C4: the `update_secret` PUT body contains exactly the supplied
(non-`None`) fields — each of `value`, `description`, `tags` appears
with the supplied value exactly when its argument is non-`None`
(in particular an omitted `value` transmits no `value` key), and no
other key ever appears in the body. -/
theorem c4_update_body_frame (value description : Option String)
    (tags : Option (List (String × String))) :
    dlookup (update_secret_body value description tags) "value"
      = value.map BVal.s
    ∧ dlookup (update_secret_body value description tags) "description"
      = description.map BVal.s
    ∧ dlookup (update_secret_body value description tags) "tags"
      = tags.map BVal.tags
    ∧ (update_secret_body value description tags).all
        (fun kv => kv.1 == "value" || kv.1 == "description" || kv.1 == "tags")
      = true := by
  cases value <;> cases description <;> cases tags <;>
    exact ⟨rfl, rfl, rfl, rfl⟩

/-! ## Claim C6 -/

/-- C6: `pull_group_secrets` returns the server's response text verbatim
for formats `env` and `export`, the parsed JSON structure for format
`json`, and surfaces a server 404 (nonexistent group) as
`VezorNotFoundError`. -/
theorem c6_pull_group_secrets (c : VezorClient) (resp : Response)
    (name format : String) (j : JValue) :
    ((format = "env" ∨ format = "export") → responseOk resp = true →
      (c.pull_group_secrets resp name format).1 = PullResult.text resp.text)
    ∧ (format = "json" → responseOk resp = true → resp.json = some j →
      (c.pull_group_secrets resp name format).1 = PullResult.json j)
    ∧ (resp.status_code = 404 →
      (c.pull_group_secrets resp name format).1
        = PullResult.err (VezorErr.notFound (errMessage resp))) := by
  refine ⟨?_, ?_, ?_⟩
  · intro hfmt hok
    simp [VezorClient.pull_group_secrets, raise_for_status_of_ok resp hok, hfmt]
  · intro hfmt hok hj
    subst hfmt
    simp [VezorClient.pull_group_secrets, raise_for_status_of_ok resp hok, hj]
  · intro h404
    have hraise : raise_for_status resp
        = Except.error (VezorErr.notFound (errMessage resp)) := by
      simp [raise_for_status, responseOk, h404]
    simp [VezorClient.pull_group_secrets, hraise]

/-- C6 witness: the pull contract at concrete responses (verbatim text
for `env`, parsed JSON for `json`, `VezorNotFoundError` on a 404). -/
theorem c6_pull_group_secrets_witness :
    ((mkVezorClient "u" none none).pull_group_secrets
        { status_code := 200, text := "A=1", json := none } "g" "env").1
      = PullResult.text "A=1"
    ∧ ((mkVezorClient "u" none none).pull_group_secrets
        { status_code := 200, text := "{}", json := some (JValue.obj []) } "g" "json").1
      = PullResult.json (JValue.obj [])
    ∧ ((mkVezorClient "u" none none).pull_group_secrets
        { status_code := 404, text := "missing", json := none } "g" "env").1
      = PullResult.err (VezorErr.notFound (JValue.str "missing")) :=
  ⟨(c6_pull_group_secrets (mkVezorClient "u" none none)
      { status_code := 200, text := "A=1", json := none } "g" "env" JValue.null).1
      (Or.inl rfl) rfl,
   (c6_pull_group_secrets (mkVezorClient "u" none none)
      { status_code := 200, text := "{}", json := some (JValue.obj []) } "g" "json"
      (JValue.obj [])).2.1 rfl rfl rfl,
   (c6_pull_group_secrets (mkVezorClient "u" none none)
      { status_code := 404, text := "missing", json := none } "g" "env"
      JValue.null).2.2 rfl⟩

/-! ## Claim C7 -/

/-- C7: every request built by a client carries
`User-Agent: vezor-python/2.0.0`; it carries
`Authorization: Bearer <token>` exactly when a (truthy) token is
configured and `X-Organization-Id` exactly when a (truthy) organization
id is configured; `set_token` / `set_organization` change the headers
carried by all subsequent requests of the same instance, leaving the
`User-Agent` in place. -/
theorem c7_request_headers (base : String) (token organization_id : Option String)
    (method endpoint : String) (params : List (String × PVal)) (t o : String) :
    dlookup ((mkVezorClient base token organization_id).mkRequest
        method endpoint params).headers "User-Agent" = some USER_AGENT
    ∧ dlookup ((mkVezorClient base token organization_id).mkRequest
        method endpoint params).headers "Authorization"
      = (if optTruthy token then some ("Bearer " ++ token.getD "") else none)
    ∧ dlookup ((mkVezorClient base token organization_id).mkRequest
        method endpoint params).headers "X-Organization-Id"
      = (if optTruthy organization_id then some (organization_id.getD "") else none)
    ∧ dlookup (((mkVezorClient base token organization_id).set_token t).mkRequest
        method endpoint params).headers "Authorization"
      = some ("Bearer " ++ t)
    ∧ dlookup (((mkVezorClient base token organization_id).set_organization o).mkRequest
        method endpoint params).headers "X-Organization-Id"
      = some o
    ∧ dlookup (((mkVezorClient base token organization_id).set_token t).mkRequest
        method endpoint params).headers "User-Agent" = some USER_AGENT := by
  cases token <;> cases organization_id <;>
    refine ⟨?_, ?_, ?_, ?_, ?_, ?_⟩ <;>
    simp [mkVezorClient, VezorClient.mkRequest, VezorClient.set_token,
      VezorClient.set_organization, optTruthy, dictSet, dlookup] <;>
    split_ifs <;>
    simp_all [dictSet, dlookup]

/-! ## Claim C8 -/

/-- C8: a failing keychain read makes `CLIConfig.get_token` return the
no-credential result (`None`) instead of raising — indistinguishable
from a stored-token lookup that found nothing — while a failing keychain
write makes `CLIConfig.set_token` propagate the failure as an error. -/
theorem c8_credential_store (e t : String) :
    CLIConfig.get_token (Except.error e) = none
    ∧ CLIConfig.get_token (Except.error e) = CLIConfig.get_token (Except.ok none)
    ∧ CLIConfig.get_token (Except.ok (some t)) = some t
    ∧ CLIConfig.set_token (Except.error e)
      = Except.error ("Failed to store token in keychain: " ++ e)
    ∧ CLIConfig.set_token (Except.ok ()) = Except.ok () :=
  ⟨rfl, rfl, rfl, rfl, rfl⟩

/-! ## Claim C9 -/

/-- C9 counterexample: with a tag literally named `limit` and the `limit`
argument omitted (or 0), the claim says the query carries no limit
parameter at all and that such a tag is replaced by the reserved value;
in fact the tag entry survives untouched, so the query DOES carry a
`limit` key holding the tag's value. -/
theorem c9_reserved_counterexample :
    dlookup (list_secrets_params (some [("limit", "999")]) none none 0) "limit"
      = some (PVal.s "999")
    ∧ dlookup (list_secrets_params (some [("limit", "999")]) none (some 0) 0) "limit"
      = some (PVal.s "999") :=
  ⟨rfl, rfl⟩

/-- C9 (amended): the query mapping is the tag entries overlaid in order
by whichever reserved parameters are actually set: `offset` is always
present (defaulting to 0) and overwrites a tag of that name; a truthy
(nonempty) `search` and a truthy (nonzero) `limit` overwrite tags of
those names, while a falsy `search`/`limit` adds no reserved entry, so
the query then holds that key only if the tags themselves supply it; all
other tag keys pass through unchanged. -/
theorem c9_query_overlay_amended (tags : Option (List (String × String)))
    (search : Option String) (limit : Option Int) (offset : Int) :
    dlookup (list_secrets_params tags search limit offset) "offset"
      = some (PVal.n offset)
    ∧ dlookup (list_secrets_params tags search limit offset) "limit"
      = (match limit with
         | some l =>
           if l ≠ 0 then some (PVal.n l)
           else dlookup (list_secrets_tagbase tags) "limit"
         | none => dlookup (list_secrets_tagbase tags) "limit")
    ∧ dlookup (list_secrets_params tags search limit offset) "search"
      = (match search with
         | some s =>
           if s ≠ "" then some (PVal.s s)
           else dlookup (list_secrets_tagbase tags) "search"
         | none => dlookup (list_secrets_tagbase tags) "search")
    ∧ ∀ k : String, k ≠ "search" → k ≠ "limit" → k ≠ "offset" →
        dlookup (list_secrets_params tags search limit offset) k
          = dlookup (list_secrets_tagbase tags) k := by
  have hsearch : ∀ k : String, k ≠ "search" →
      dlookup (searchStep (list_secrets_tagbase tags) search) k
        = dlookup (list_secrets_tagbase tags) k := by
    intro k hk
    cases search with
    | none => rfl
    | some s =>
      by_cases hs : s ≠ "" <;>
        simp [searchStep, hs, dlookup_dictSet_ne _ _ _ _ hk]
  have hlimit : ∀ k : String, k ≠ "limit" →
      dlookup (limitStep (searchStep (list_secrets_tagbase tags) search) limit) k
        = dlookup (searchStep (list_secrets_tagbase tags) search) k := by
    intro k hk
    cases limit with
    | none => rfl
    | some l =>
      by_cases hl : l ≠ 0 <;>
        simp [limitStep, hl, dlookup_dictSet_ne _ _ _ _ hk]
  refine ⟨?_, ?_, ?_, ?_⟩
  · exact dlookup_dictSet_self _ _ _
  · rw [list_secrets_params, dlookup_dictSet_ne _ _ _ _ (by decide)]
    cases limit with
    | none => exact hsearch "limit" (by decide)
    | some l =>
      by_cases hl : l ≠ 0
      · simp [limitStep, hl, dlookup_dictSet_self]
      · simp [limitStep, hl, hsearch "limit" (by decide)]
  · rw [list_secrets_params, dlookup_dictSet_ne _ _ _ _ (by decide),
      hlimit "search" (by decide)]
    cases search with
    | none => rfl
    | some s =>
      by_cases hs : s ≠ ""
      · simp [searchStep, hs, dlookup_dictSet_self]
      · simp [searchStep, hs]
  · intro k hks hkl hko
    rw [list_secrets_params, dlookup_dictSet_ne _ _ _ _ hko,
      hlimit k hkl, hsearch k hks]

/-- C9 witness: the amended overlay claim at a concrete call — an
ordinary tag key passes through unchanged. -/
theorem c9_query_overlay_amended_witness :
    dlookup (list_secrets_params (some [("env", "prod")]) (some "DB") (some 5) 0) "env"
      = dlookup (list_secrets_tagbase (some [("env", "prod")])) "env" :=
  (c9_query_overlay_amended (some [("env", "prod")]) (some "DB") (some 5) 0).2.2.2
    "env" (by decide) (by decide) (by decide)

/-! ## Claim C10 -/

theorem dropWhile_slash_replicate_append (n : Nat) (l : List Char) :
    List.dropWhile (fun c => c = '/') (List.replicate n '/' ++ l)
      = List.dropWhile (fun c => c = '/') l := by
  induction n with
  | zero => rfl
  | succ k ih =>
    rw [List.replicate_succ, List.cons_append]
    simp [ih]

theorem rstripSlashes_append_slashes (s : String) (n : Nat) :
    rstripSlashes (s ++ String.mk (List.replicate n '/')) = rstripSlashes s := by
  have hdata : (s ++ String.mk (List.replicate n '/')).data
      = s.data ++ List.replicate n '/' := by
    cases s
    rfl
  unfold rstripSlashes
  rw [hdata, List.reverse_append, List.reverse_replicate,
    dropWhile_slash_replicate_append]

/-- C10: the constructor strips all trailing `'/'` from `base_url` and
`_request` concatenates the stored base with the endpoint, so two
clients whose base URLs differ only in trailing slashes issue identical
request URLs for every operation. -/
theorem c10_trailing_slash_urls (base : String) (token organization_id : Option String)
    (n m : Nat) (method endpoint : String) (params : List (String × PVal)) :
    ((mkVezorClient (base ++ String.mk (List.replicate n '/')) token organization_id).mkRequest
        method endpoint params).url
      = ((mkVezorClient (base ++ String.mk (List.replicate m '/')) token organization_id).mkRequest
          method endpoint params).url
    ∧ (mkVezorClient base token organization_id).base_url = rstripSlashes base
    ∧ ((mkVezorClient base token organization_id).mkRequest method endpoint params).url
      = rstripSlashes base ++ endpoint := by
  refine ⟨?_, rfl, rfl⟩
  show rstripSlashes (base ++ String.mk (List.replicate n '/')) ++ endpoint
      = rstripSlashes (base ++ String.mk (List.replicate m '/')) ++ endpoint
  rw [rstripSlashes_append_slashes, rstripSlashes_append_slashes]

end Vezor
